import Mathlib

/-!
Shallow embedding of the healthcare ETL pipeline
(modules `src/utils.py`, `src/extract.py`, `src/transform.py`, `src/load.py`).

Modelling conventions:
- A pandas cell that may be NaN/NaT after a tolerant coercion
  (`pd.to_numeric(..., errors="coerce")`, `pd.to_datetime(..., errors="coerce")`)
  is an `Option` value: `none` models NaN/NaT, `some v` a parsed value.
- Numeric cells are `ℚ` (pandas float64 values, modelled exactly);
  dates are `Int` day indices, so a timedelta `.dt.days` is plain subtraction.
- A dataframe is a `List` of typed rows, plus (where a claim needs it)
  the list of column names, which is what `validate_dataframe` inspects.
- `pd.cut(x, bins, labels)` with pandas defaults assigns label `i` when
  `bins[i] < x ≤ bins[i+1]` (left-open, right-closed, lowest bound excluded);
  a value in no bin gets NaN, modelled as `none`.
-/

namespace HealthcareETL

/-- Model of one `pd.cut` interval: `(lo, hi]`, with `hi = none` meaning `+∞`
(the source passes `float('inf')` as the final bin edge). -/
def cutMem (x : ℚ) (lo : ℚ) (hi : Option ℚ) : Bool :=
  decide (lo < x) && hi.all (fun h => decide (x ≤ h))

/-- Model of `pd.cut(x, bins, labels)` with pandas defaults (`right=True`,
`include_lowest=False`): the label of the unique interval containing `x`,
`none` when `x` falls in no interval. -/
def pdCut (x : ℚ) : List (ℚ × Option ℚ × String) → Option String
  | [] => none
  | iv :: rest => if cutMem x iv.1 iv.2.1 then some iv.2.2 else pdCut x rest

/-- Model of `utils.calculate_readmission_flag`, per row: `days_between =
(readmission_date - discharge_date).dt.days`; flag iff
`days_between ≤ threshold ∧ days_between > 0`; NaN comparisons are false and
`fillna(False)` keeps the flag false whenever either date is missing.
The `admission_date` argument is accepted and unused, as in the source. -/
def calculate_readmission_flag (admission_date discharge_date readmission_date :
    Option Int) (days_threshold : Int) : Bool :=
  match readmission_date, discharge_date with
  | some r, some d =>
      let days_between := r - d
      decide (days_between ≤ days_threshold) && decide (days_between > 0)
  | _, _ => false

/-- Model of `utils.calculate_medication_adherence`: `adherence = days_supplied /
days_prescribed`, then `fillna(0)`, then `clip(0, 1)`.  The float corner
cases are mirrored: a NaN operand gives NaN, mapped to 0 by `fillna`;
division by zero gives `±inf` (or NaN for 0/0), which `clip` sends to 1
(resp. 0), `fillna` to 0. -/
def calculate_medication_adherence (days_supplied days_prescribed : Option ℚ) :
    ℚ :=
  match days_supplied, days_prescribed with
  | some a, some b =>
      if b = 0 then
        if a = 0 then 0 else if a > 0 then 1 else 0
      else
        min 1 (max 0 (a / b))
  | _, _ => 0

/-- Model of `utils.clean_icd_code`: upper-case, strip, keep alphanumerics and dots,
and insert a dot after the third character of a long undotted alphabetic
code.  `pd.isna(code)` (a null cell) stays null. -/
def clean_icd_code (code : Option String) : Option String :=
  match code with
  | none => none
  | some s =>
      let c : String :=
        ((s.toUpper.trim).toList.filter (fun ch => ch.isAlphanum || ch == '.')).asString
      let c :=
        if c.length > 0 && (c.get 0).isAlpha then
          if !(c.contains '.') && c.length > 3 then
            (c.toList.take 3).asString ++ "." ++ (c.toList.drop 3).asString
          else c
        else c
      some c

/-- Model of `utils.standardize_gender`, per cell: upper-case, map through the fixed
dictionary, `fillna("Unknown")` (a null cell maps straight to "Unknown"). -/
def standardize_gender (gender : Option String) : String :=
  match gender with
  | none => "Unknown"
  | some g =>
      let u := g.toUpper
      if u = "M" then "Male"
      else if u = "F" then "Female"
      else if u = "MALE" then "Male"
      else if u = "FEMALE" then "Female"
      else if u = "1" then "Male"
      else if u = "0" then "Female"
      else "Unknown"

/-- Model of `utils.validate_dataframe`: true iff every required column name is
among the dataframe's columns. -/
def validate_dataframe (cols : List String) (required : List String) : Bool :=
  required.all (fun c => cols.contains c)

/-- Model of `df.drop_duplicates(subset=[key])`: keep the first row bearing each key. -/
def dedupBy (key : α → Nat) : List α → List Nat → List α
  | [], _ => []
  | x :: xs, seen =>
      if seen.contains (key x) then dedupBy key xs seen
      else x :: dedupBy key xs (key x :: seen)

/-- Model of `pandas.Series.unique()` on strings: distinct values in first-occurrence
order. -/
def dedupStr : List String → List String
  | [] => []
  | x :: xs => x :: (dedupStr xs).filter (fun y => y ≠ x)

/-! ## Claims rows (`transform.py`) -/

/-- A bronze claims row, fields as they stand after the tolerant coercions:
`cost` and `length_of_stay` are `pd.to_numeric(..., errors="coerce")`
results, the three dates are `pd.to_datetime(..., errors="coerce")` results. -/
structure ClaimRow where
  claim_id : Nat
  patient_id : Nat
  provider_id : Nat
  admission_date : Option Int
  discharge_date : Option Int
  readmission_date : Option Int
  diagnosis_code : Option String
  procedure_code : String
  insurance_type : Option String
  cost : Option ℚ
  length_of_stay : Option ℚ
  deriving Repr, DecidableEq

/-- The per-row column rewrites of `_clean_claims_data` that precede the
row filters: ICD cleaning, procedure upper/strip, insurance `fillna`.
(The date/numeric coercions are already reflected in the row type.) -/
def cleanClaimCells (r : ClaimRow) : ClaimRow :=
  { r with
    diagnosis_code := clean_icd_code r.diagnosis_code
    procedure_code := r.procedure_code.toUpper.trim
    insurance_type := some (r.insurance_type.getD "Unknown") }

/-- The filter `df[df['cost'] > 0]` (a NaN cost compares false and is dropped). -/
def costPositive (r : ClaimRow) : Bool :=
  match r.cost with
  | some c => decide (c > 0)
  | none => false

/-- The filter `df[(df['length_of_stay'] >= 0) & (df['length_of_stay'] <= 365)]`. -/
def losInRange (r : ClaimRow) : Bool :=
  match r.length_of_stay with
  | some l => decide (l ≥ 0) && decide (l ≤ 365)
  | none => false

/-- Model of `HealthcareDataTransformer._clean_claims_data`: drop duplicate
`claim_id`s (first kept), rewrite the text columns, then drop rows with
non-positive (or unparsable) cost and rows with `length_of_stay` outside
`[0, 365]` (or unparsable). -/
def clean_claims_data (rows : List ClaimRow) : List ClaimRow :=
  let d := dedupBy (fun r => r.claim_id) rows []
  let d := d.map cleanClaimCells
  let d := d.filter costPositive
  d.filter losInRange

/-- A silver claims row: the cleaned row plus the engineered columns of
`_engineer_claims_features` that the verified properties concern. -/
structure ClaimFeat extends ClaimRow where
  readmission_flag : Bool
  cost_per_day : Option ℚ
  cost_category : Option String
  los_category : Option String
  deriving Repr, DecidableEq

/-- The bins of `pd.cut` for `cost_category` in `_engineer_claims_features`. -/
def costBins : List (ℚ × Option ℚ × String) :=
  [(0, some 1000, "Low"), (1000, some 5000, "Medium"),
   (5000, some 15000, "High"), (15000, none, "Very High")]

/-- The bins of `pd.cut` for `los_category` in `_engineer_claims_features`. -/
def losBins : List (ℚ × Option ℚ × String) :=
  [(0, some 1, "Same Day"), (1, some 3, "Short"),
   (3, some 7, "Medium"), (7, none, "Long")]

/-- Model of `HealthcareDataTransformer._engineer_claims_features`, restricted to the
derived columns the verified properties concern: `readmission_flag` via
`calculate_readmission_flag` (threshold 30), `cost_per_day = cost /
(length_of_stay + 1)` (NaN propagates), `cost_category` and `los_category`
via `pd.cut`.  The calendar-derived columns (month, quarter, year, weekday)
are omitted as no verified property mentions them. -/
def engineerClaimRow (r : ClaimRow) : ClaimFeat :=
  { r with
    readmission_flag :=
      calculate_readmission_flag r.admission_date r.discharge_date
        r.readmission_date 30
    cost_per_day := do
      let c ← r.cost
      let l ← r.length_of_stay
      pure (c / (l + 1))
    cost_category := (r.cost.map fun c => pdCut c costBins).join
    los_category := (r.length_of_stay.map fun l => pdCut l losBins).join }

/-- The row-wise mapping of `_engineer_claims_features` over the dataframe. -/
def engineer_claims_features (rows : List ClaimRow) : List ClaimFeat :=
  rows.map engineerClaimRow

/-! ## Patients rows (`transform.py`) -/

/-- A bronze patients row after the tolerant coercions: `age` and
`chronic_conditions` numeric-or-NaN, `last_visit_date` date-or-NaT. -/
structure PatientRow where
  patient_id : Nat
  age : Option ℚ
  gender : Option String
  race : Option String
  zip_code : String
  insurance_type : Option String
  chronic_conditions : Option ℚ
  last_visit_date : Option Int
  deriving Repr, DecidableEq

/-- The per-row rewrites of `_clean_patients_data`: gender standardised,
zip truncated to five characters, `race`/`insurance_type` `fillna`d. -/
def cleanPatientCells (r : PatientRow) : PatientRow :=
  { r with
    gender := some (standardize_gender r.gender)
    zip_code := (r.zip_code.toList.take 5).asString
    race := some (r.race.getD "Unknown")
    insurance_type := some (r.insurance_type.getD "Unknown") }

/-- The filter `df[(df['age'] >= 0) & (df['age'] <= 120)]`. -/
def ageInRange (r : PatientRow) : Bool :=
  match r.age with
  | some a => decide (a ≥ 0) && decide (a ≤ 120)
  | none => false

/-- Model of `HealthcareDataTransformer._clean_patients_data`: drop duplicate
`patient_id`s, rewrite cells, drop rows whose age is outside `[0, 120]`
or unparsable. -/
def clean_patients_data (rows : List PatientRow) : List PatientRow :=
  let d := dedupBy (fun r => r.patient_id) rows []
  let d := d.map cleanPatientCells
  d.filter ageInRange

/-- A silver patients row with the engineered columns of
`_engineer_patients_features`. -/
structure PatientFeat extends PatientRow where
  age_category : Option String
  risk_level : Option String
  days_since_last_visit : Option Int
  patient_status : String
  deriving Repr, DecidableEq

/-- The bins of `pd.cut` for `age_category` in `_engineer_patients_features`:
`bins=[0, 18, 35, 50, 65, 100]`. -/
def ageBins : List (ℚ × Option ℚ × String) :=
  [(0, some 18, "Pediatric"), (18, some 35, "Young Adult"),
   (35, some 50, "Adult"), (50, some 65, "Middle Age"),
   (65, some 100, "Senior")]

/-- The bins of `pd.cut` for `risk_level`: `bins=[-1, 0, 2, 4, inf]`. -/
def riskBins : List (ℚ × Option ℚ × String) :=
  [(-1, some 0, "Low"), (0, some 2, "Medium"),
   (2, some 4, "High"), (4, none, "Very High")]

/-- The `apply` lambda for `patient_status`: `'Active' if x <= 90 else
'Inactive' if x <= 365 else 'Dormant'`; a NaN `days_since_last_visit`
fails both comparisons and lands on `'Dormant'`. -/
def patientStatusOf (days : Option Int) : String :=
  match days with
  | some x => if x ≤ 90 then "Active" else if x ≤ 365 then "Inactive" else "Dormant"
  | none => "Dormant"

/-- Model of `HealthcareDataTransformer._engineer_patients_features`.  The wall-clock
`datetime.now()` is passed explicitly as `current_date` (a day index). -/
def engineerPatientRow (current_date : Int) (r : PatientRow) : PatientFeat :=
  let days := r.last_visit_date.map fun d => current_date - d
  { r with
    age_category := (r.age.map fun a => pdCut a ageBins).join
    risk_level := (r.chronic_conditions.map fun c => pdCut c riskBins).join
    days_since_last_visit := days
    patient_status := patientStatusOf days }

/-- The row-wise mapping of `_engineer_patients_features` over the dataframe. -/
def engineer_patients_features (current_date : Int) (rows : List PatientRow) :
    List PatientFeat :=
  rows.map (engineerPatientRow current_date)

/-! ## Prescriptions rows (`transform.py`) -/

/-- A bronze prescriptions row after the tolerant coercions. -/
structure PrescriptionRow where
  prescription_id : Nat
  patient_id : Nat
  provider_id : Nat
  medication_name : String
  prescription_date : Option Int
  days_supplied : Option ℚ
  days_prescribed : Option ℚ
  quantity : Option ℚ
  cost : Option ℚ
  deriving Repr, DecidableEq

/-- The per-row rewrites of `_clean_prescriptions_data` other than the
filters: medication name strip/title.  Python `str.title()` upper-cases the
first letter of every alphabetic run and lower-cases the rest. -/
def titleCase (s : String) : String :=
  (s.toList.foldl
    (fun acc ch =>
      let t :=
        if ch.isAlpha then (if acc.2 then ch.toLower else ch.toUpper) else ch
      (acc.1.push t, ch.isAlpha))
    ("", false)).1

/-- Cell rewrites of `_clean_prescriptions_data`. -/
def cleanPrescriptionCells (r : PrescriptionRow) : PrescriptionRow :=
  { r with medication_name := titleCase r.medication_name.trim }

/-- One round of `df[df[col] > 0]` for a numeric prescription column. -/
def optPositive (v : Option ℚ) : Bool :=
  match v with
  | some x => decide (x > 0)
  | none => false

/-- Model of `HealthcareDataTransformer._clean_prescriptions_data`: drop duplicate
`prescription_id`s, rewrite cells, then in turn drop rows whose
`days_supplied`, `days_prescribed`, `quantity`, `cost` is not `> 0`
(or unparsable). -/
def clean_prescriptions_data (rows : List PrescriptionRow) :
    List PrescriptionRow :=
  let d := dedupBy (fun r => r.prescription_id) rows []
  let d := d.map cleanPrescriptionCells
  let d := d.filter (fun r => optPositive r.days_supplied)
  let d := d.filter (fun r => optPositive r.days_prescribed)
  let d := d.filter (fun r => optPositive r.quantity)
  d.filter (fun r => optPositive r.cost)

/-- A silver prescriptions row with the engineered columns of
`_engineer_prescriptions_features` the verified properties concern. -/
structure PrescriptionFeat extends PrescriptionRow where
  adherence_rate : ℚ
  adherence_category : Option String
  cost_per_day : Option ℚ
  medication_category : String
  deriving Repr, DecidableEq

/-- The bins of `pd.cut` for `adherence_category`: `bins=[0, 0.5, 0.8, 1.0]`. -/
def adherenceBins : List (ℚ × Option ℚ × String) :=
  [(0, some (1/2), "Poor"), (1/2, some (4/5), "Fair"), (4/5, some 1, "Good")]

/-- The fixed medication → category dictionary of
`_engineer_prescriptions_features`. -/
def medicationCategories : List (String × String) :=
  [("Metformin", "Diabetes"), ("Lisinopril", "Cardiovascular"),
   ("Atorvastatin", "Cardiovascular"), ("Metoprolol", "Cardiovascular"),
   ("Omeprazole", "Gastrointestinal"), ("Amlodipine", "Cardiovascular"),
   ("Hydrochlorothiazide", "Cardiovascular"), ("Simvastatin", "Cardiovascular"),
   ("Losartan", "Cardiovascular"), ("Albuterol", "Respiratory")]

/-- Lookup in a Python dict built by insertion: a later binding for the same
key overrides an earlier one. -/
def dictLookup (m : List (String × α)) (k : String) : Option α :=
  m.foldl (fun acc p => if p.1 = k then some p.2 else acc) none

/-- Model of `HealthcareDataTransformer._engineer_prescriptions_features`, restricted
to the derived columns the verified properties concern (the
calendar-derived columns are omitted). -/
def engineerPrescriptionRow (r : PrescriptionRow) : PrescriptionFeat :=
  let rate := calculate_medication_adherence r.days_supplied r.days_prescribed
  { r with
    adherence_rate := rate
    adherence_category := pdCut rate adherenceBins
    cost_per_day := do
      let c ← r.cost
      let d ← r.days_supplied
      pure (c / d)
    medication_category :=
      (dictLookup medicationCategories r.medication_name).getD "Other" }

/-- The row-wise mapping of `_engineer_prescriptions_features`. -/
def engineer_prescriptions_features (rows : List PrescriptionRow) :
    List PrescriptionFeat :=
  rows.map engineerPrescriptionRow

/-! ## Providers rows (`transform.py`) -/

/-- A bronze providers row after the tolerant coercions. -/
structure ProviderRow where
  provider_id : Nat
  hospital_name : String
  provider_type : String
  state : String
  city : String
  beds : Option ℚ
  teaching_hospital : Option Bool
  deriving Repr, DecidableEq

/-- Cell rewrites of `_clean_providers_data`. -/
def cleanProviderCells (r : ProviderRow) : ProviderRow :=
  { r with
    hospital_name := titleCase r.hospital_name.trim
    provider_type := titleCase r.provider_type.trim
    state := r.state.toUpper.trim
    city := titleCase r.city.trim
    teaching_hospital := some (r.teaching_hospital.getD false) }

/-- The filter `df[df['beds'] > 0]`. -/
def bedsPositive (r : ProviderRow) : Bool :=
  match r.beds with
  | some b => decide (b > 0)
  | none => false

/-- Model of `HealthcareDataTransformer._clean_providers_data`. -/
def clean_providers_data (rows : List ProviderRow) : List ProviderRow :=
  let d := dedupBy (fun r => r.provider_id) rows []
  let d := d.map cleanProviderCells
  d.filter bedsPositive

/-- A silver providers row with the engineered columns of
`_engineer_providers_features`. -/
structure ProviderFeat extends ProviderRow where
  hospital_size : Option String
  full_address : String
  avg_cost : ℚ
  readmission_rate : ℚ
  patient_volume : Nat
  deriving Repr, DecidableEq

/-- The bins of `pd.cut` for `hospital_size`: `bins=[0, 100, 300, 600, inf]`. -/
def hospitalSizeBins : List (ℚ × Option ℚ × String) :=
  [(0, some 100, "Small"), (100, some 300, "Medium"),
   (300, some 600, "Large"), (600, none, "Very Large")]

/-- Model of `HealthcareDataTransformer._engineer_providers_features`. -/
def engineerProviderRow (r : ProviderRow) : ProviderFeat :=
  { r with
    hospital_size := (r.beds.map fun b => pdCut b hospitalSizeBins).join
    full_address := r.city ++ ", " ++ r.state
    avg_cost := 0
    readmission_rate := 0
    patient_volume := 0 }

/-- The row-wise mapping of `_engineer_providers_features`. -/
def engineer_providers_features (rows : List ProviderRow) : List ProviderFeat :=
  rows.map engineerProviderRow

/-! ## Per-entity transforms and `transform_all_data` (`transform.py`) -/

/-- A dataframe: its column-name list (what `validate_dataframe` inspects)
and its typed rows. -/
structure DF (α : Type) where
  cols : List String
  rows : List α
  deriving Repr, DecidableEq

/-- Required columns checked by `_validate_claims_data`. -/
def requiredClaimsColumns : List String :=
  ["claim_id", "patient_id", "provider_id", "diagnosis_code", "cost"]

/-- Required columns checked by `_validate_patients_data`. -/
def requiredPatientsColumns : List String := ["patient_id", "age", "gender"]

/-- Required columns checked by `_validate_providers_data`. -/
def requiredProvidersColumns : List String :=
  ["provider_id", "hospital_name", "state"]

/-- Required columns checked by `_validate_prescriptions_data`. -/
def requiredPrescriptionsColumns : List String :=
  ["prescription_id", "patient_id", "medication_name", "cost"]

/-- Columns added by `_engineer_claims_features`. -/
def claimsEngineeredColumns : List String :=
  ["readmission_flag", "cost_per_day", "cost_category", "los_category",
   "admission_month", "admission_quarter", "admission_year", "admission_dow"]

/-- Columns added by `_engineer_patients_features`. -/
def patientsEngineeredColumns : List String :=
  ["age_category", "risk_level", "days_since_last_visit", "patient_status"]

/-- Columns added by `_engineer_providers_features`. -/
def providersEngineeredColumns : List String :=
  ["hospital_size", "full_address", "avg_cost", "readmission_rate",
   "patient_volume"]

/-- Columns added by `_engineer_prescriptions_features`. -/
def prescriptionsEngineeredColumns : List String :=
  ["adherence_rate", "adherence_category", "cost_per_day",
   "medication_category", "prescription_month", "prescription_quarter",
   "prescription_year"]

/-- Model of `HealthcareDataTransformer.transform_claims_data`: clean, engineer,
validate; a failed validation raises `ValueError("Claims data validation
failed")`, modelled as `Except.error`. -/
def transform_claims_data (bronze : DF ClaimRow) : Except String (DF ClaimFeat) :=
  let rows := engineer_claims_features (clean_claims_data bronze.rows)
  let cols := bronze.cols ++ claimsEngineeredColumns
  if validate_dataframe cols requiredClaimsColumns then Except.ok ⟨cols, rows⟩
  else Except.error "Claims data validation failed"

/-- Model of `HealthcareDataTransformer.transform_patients_data`. -/
def transform_patients_data (current_date : Int) (bronze : DF PatientRow) :
    Except String (DF PatientFeat) :=
  let rows := engineer_patients_features current_date (clean_patients_data bronze.rows)
  let cols := bronze.cols ++ patientsEngineeredColumns
  if validate_dataframe cols requiredPatientsColumns then Except.ok ⟨cols, rows⟩
  else Except.error "Patients data validation failed"

/-- Model of `HealthcareDataTransformer.transform_providers_data`. -/
def transform_providers_data (bronze : DF ProviderRow) :
    Except String (DF ProviderFeat) :=
  let rows := engineer_providers_features (clean_providers_data bronze.rows)
  let cols := bronze.cols ++ providersEngineeredColumns
  if validate_dataframe cols requiredProvidersColumns then Except.ok ⟨cols, rows⟩
  else Except.error "Providers data validation failed"

/-- Model of `HealthcareDataTransformer.transform_prescriptions_data`. -/
def transform_prescriptions_data (bronze : DF PrescriptionRow) :
    Except String (DF PrescriptionFeat) :=
  let rows := engineer_prescriptions_features (clean_prescriptions_data bronze.rows)
  let cols := bronze.cols ++ prescriptionsEngineeredColumns
  if validate_dataframe cols requiredPrescriptionsColumns then Except.ok ⟨cols, rows⟩
  else Except.error "Prescriptions data validation failed"

/-- The output of a full transform run. -/
structure TransformResults where
  claims : DF ClaimFeat
  patients : DF PatientFeat
  providers : DF ProviderFeat
  prescriptions : DF PrescriptionFeat
  deriving Repr, DecidableEq

/-- Model of `HealthcareDataTransformer.transform_all_data`: the four entity
transforms are invoked one after another with no exception handling, so
the first `ValueError` (validation failure) propagates and aborts the
remaining transforms. -/
def transform_all_data (current_date : Int) (cb : DF ClaimRow)
    (pb : DF PatientRow) (vb : DF ProviderRow) (rb : DF PrescriptionRow) :
    Except String TransformResults := do
  let c ← transform_claims_data cb
  let p ← transform_patients_data current_date pb
  let v ← transform_providers_data vb
  let r ← transform_prescriptions_data rb
  pure ⟨c, p, v, r⟩

/-- The entity transforms actually executed by `transform_all_data`, in
order, per its control flow: each entity runs only if every earlier
entity's transform returned without raising. -/
def transformsRun (current_date : Int) (cb : DF ClaimRow) (pb : DF PatientRow)
    (vb : DF ProviderRow) (rb : DF PrescriptionRow) : List String :=
  "claims" ::
    match transform_claims_data cb with
    | Except.error _ => []
    | Except.ok _ =>
        "patients" ::
          match transform_patients_data current_date pb with
          | Except.error _ => []
          | Except.ok _ =>
              "providers" ::
                match transform_providers_data vb with
                | Except.error _ => []
                | Except.ok _ => ["prescriptions"]

/-! ## Loader (`load.py`) -/

/-- The outcome of each fallible step of `HealthcareDataLoader.load_all_data`,
abstracting the warehouse I/O: each per-entity `load_*_data` method catches
every exception internally and returns a boolean, modelled here as an
environment-given outcome. -/
structure LoadEnv where
  connect_ok : Bool
  create_schema_ok : Bool
  load_patients_ok : Bool
  load_providers_ok : Bool
  load_claims_ok : Bool
  load_prescriptions_ok : Bool
  deriving Repr, DecidableEq

/-- Model of `HealthcareDataLoader.load_all_data`: overall boolean result plus the
ordered list of steps executed, per the source's control flow.  A failed
connect or schema step returns `False` immediately; the four entity loads
all run unconditionally, each clearing `success` on failure; the metric
update and view creation run only when `success` is still set. -/
def load_all_data (env : LoadEnv) : Bool × List String :=
  if !env.connect_ok then (false, ["connect_to_database"])
  else if !env.create_schema_ok then
    (false, ["connect_to_database", "create_schema"])
  else
    let success := true
    let success := if !env.load_patients_ok then false else success
    let success := if !env.load_providers_ok then false else success
    let success := if !env.load_claims_ok then false else success
    let success := if !env.load_prescriptions_ok then false else success
    let steps := ["connect_to_database", "create_schema", "load_patients_data",
      "load_providers_data", "load_claims_data", "load_prescriptions_data"]
    let steps :=
      if success then
        steps ++ ["update_provider_metrics", "create_analytics_views"]
      else steps
    (success, steps)

/-- Model of `HealthcareDataLoader._add_medication_ids`: map every row's
`medication_name` through the warehouse medications dictionary; collect the
distinct unmapped names (these are logged as a warning); unmapped rows are
kept with `medication_id` defaulted to the sentinel 0 via `fillna(0)`.
Returns the rows paired with their resolved ids, and the logged unmapped
names in first-occurrence order. -/
def add_medication_ids (medications : List (String × Nat))
    (rows : List PrescriptionFeat) : List (PrescriptionFeat × Nat) × List String :=
  let resolved := rows.map fun r =>
    (r, dictLookup medications r.medication_name)
  let unmapped :=
    dedupStr ((resolved.filter (fun p => p.2.isNone)).map
      (fun p => p.1.medication_name))
  (resolved.map (fun p => (p.1, p.2.getD 0)), unmapped)

/-! ## Extractor (`extract.py`) -/

/-- The state of the process-wide `numpy.random` generator, abstract: all
the claims need is that `np.random.seed(n)` resets it to a value determined
by `n` alone. -/
structure RngState where
  state : Nat
  deriving Repr, DecidableEq

/-- Model of `np.random.seed(n)`. -/
def npSeed (n : Nat) : RngState := ⟨n⟩

/-- Model of `HealthcareDataExtractor._generate_sample_claims_data`: the method
first executes `np.random.seed(42)`, discarding the ambient generator
state, then draws the synthetic rows — the drawing is abstracted as a
function `body` of the (now fixed) generator state. -/
def generate_sample_claims_data (body : RngState → DF ClaimRow)
    (ambient : RngState) : DF ClaimRow :=
  body (npSeed 42)

/-- Model of `HealthcareDataExtractor.extract_claims_data`: `if file_path and
os.path.exists(file_path): read_csv else: generate`.  The filesystem is a
map from paths to parsed contents (`none` = absent; Python's
`os.path.exists("")` is false, matching the truthiness test on the path).
Returns the dataset and the provenance `source` field (`file_path or
"generated"`). -/
def extract_claims_data (fs : String → Option (DF ClaimRow))
    (body : RngState → DF ClaimRow) (file_path : Option String)
    (ambient : RngState) : DF ClaimRow × String :=
  match file_path with
  | some p =>
      if p.isEmpty then (generate_sample_claims_data body ambient, "generated")
      else
        match fs p with
        | some df => (df, p)
        | none => (generate_sample_claims_data body ambient, p)
  | none => (generate_sample_claims_data body ambient, "generated")

/-! ## Helper lemmas -/

theorem length_dedupBy_le (key : α → Nat) (xs : List α) (seen : List Nat) :
    (dedupBy key xs seen).length ≤ xs.length := by
  induction xs generalizing seen with
  | nil => simp [dedupBy]
  | cons x t ih =>
      simp only [dedupBy]
      split
      · exact (ih seen).trans (Nat.le_succ _)
      · simpa using Nat.succ_le_succ (ih _)

theorem mem_of_mem_dedupBy {key : α → Nat} {xs : List α} {seen : List Nat}
    {r : α} (h : r ∈ dedupBy key xs seen) : r ∈ xs := by
  induction xs generalizing seen with
  | nil => simp [dedupBy] at h
  | cons x t ih =>
      simp only [dedupBy] at h
      split at h
      · exact List.mem_cons_of_mem _ (ih h)
      · rcases List.mem_cons.mp h with h | h
        · exact h ▸ List.mem_cons_self _ _
        · exact List.mem_cons_of_mem _ (ih h)

theorem length_filter_dedupBy_lt (key : α → Nat) (P : α → Bool) (xs : List α)
    (seen : List Nat) (r : α) (hr : r ∈ xs) (hP : P r = false) :
    ((dedupBy key xs seen).filter P).length < xs.length := by
  induction xs generalizing seen with
  | nil => cases hr
  | cons x t ih =>
      simp only [dedupBy]
      split
      · rcases List.mem_cons.mp hr with h | h
        · exact Nat.lt_succ_of_le
            ((List.length_filter_le _ _).trans (length_dedupBy_le key t seen))
        · exact Nat.lt_succ_of_lt (ih seen h)
      · rcases List.mem_cons.mp hr with h | h
        · subst h
          simp only [List.filter_cons, hP, List.length_cons]
          exact Nat.lt_succ_of_le
            ((List.length_filter_le _ _).trans (length_dedupBy_le key t _))
        · cases hPx : P x with
          | true =>
              simp only [List.filter_cons, hPx, List.length_cons]
              exact Nat.succ_lt_succ (ih _ h)
          | false =>
              simp only [List.filter_cons, hPx, List.length_cons]
              exact Nat.lt_succ_of_lt (ih _ h)

theorem mem_dedupStr {x : String} {l : List String} :
    x ∈ dedupStr l ↔ x ∈ l := by
  induction l with
  | nil => simp [dedupStr]
  | cons y t ih =>
      by_cases hxy : x = y
      · subst hxy; simp [dedupStr]
      · simp [dedupStr, List.mem_filter, hxy, ih]

theorem costPositive_iff (r : ClaimRow) :
    costPositive r = true ↔ ∃ c, r.cost = some c ∧ 0 < c := by
  cases hc : r.cost <;> simp [costPositive, hc]

theorem losInRange_iff (r : ClaimRow) :
    losInRange r = true ↔ ∃ l, r.length_of_stay = some l ∧ 0 ≤ l ∧ l ≤ 365 := by
  cases hl : r.length_of_stay <;> simp [losInRange, hl]

theorem mem_clean_claims {rows : List ClaimRow} {r : ClaimRow}
    (h : r ∈ clean_claims_data rows) :
    costPositive r = true ∧ losInRange r = true := by
  unfold clean_claims_data at h
  have h1 := List.mem_filter.mp h
  have h2 := List.mem_filter.mp h1.1
  exact ⟨h2.2, h1.2⟩

theorem optPositive_iff (v : Option ℚ) :
    optPositive v = true ↔ ∃ x, v = some x ∧ 0 < x := by
  cases hv : v <;> simp [optPositive, hv]

theorem mem_clean_prescriptions {rows : List PrescriptionRow}
    {r : PrescriptionRow} (h : r ∈ clean_prescriptions_data rows) :
    optPositive r.days_supplied = true ∧ optPositive r.days_prescribed = true ∧
      optPositive r.quantity = true ∧ optPositive r.cost = true := by
  unfold clean_prescriptions_data at h
  have h1 := List.mem_filter.mp h
  have h2 := List.mem_filter.mp h1.1
  have h3 := List.mem_filter.mp h2.1
  have h4 := List.mem_filter.mp h3.1
  exact ⟨h4.2, h3.2, h2.2, h1.2⟩

/-- Closed form of the `age_category` cut: the pandas bins
`[0, 18, 35, 50, 65, 100]` leave `a ≤ 0` and `a > 100` uncategorised. -/
theorem pdCut_ageBins (a : ℚ) :
    pdCut a ageBins =
      if a ≤ 0 then none
      else if a ≤ 18 then some "Pediatric"
      else if a ≤ 35 then some "Young Adult"
      else if a ≤ 50 then some "Adult"
      else if a ≤ 65 then some "Middle Age"
      else if a ≤ 100 then some "Senior"
      else none := by
  rcases le_or_lt a 0 with h0 | h0
  · have n1 : ¬ (0:ℚ) < a := by linarith
    have n2 : ¬ (18:ℚ) < a := by linarith
    have n3 : ¬ (35:ℚ) < a := by linarith
    have n4 : ¬ (50:ℚ) < a := by linarith
    have n5 : ¬ (65:ℚ) < a := by linarith
    simp [pdCut, ageBins, cutMem, h0, n1, n2, n3, n4, n5]
  · have m0 : ¬ a ≤ (0:ℚ) := by linarith
    rcases le_or_lt a 18 with h1 | h1
    · simp [pdCut, ageBins, cutMem, h0, h1, m0]
    · have m1 : ¬ a ≤ (18:ℚ) := by linarith
      rcases le_or_lt a 35 with h2 | h2
      · simp [pdCut, ageBins, cutMem, h1, h2, m0, m1]
      · have m2 : ¬ a ≤ (35:ℚ) := by linarith
        rcases le_or_lt a 50 with h3 | h3
        · simp [pdCut, ageBins, cutMem, h2, h3, m0, m1, m2]
        · have m3 : ¬ a ≤ (50:ℚ) := by linarith
          rcases le_or_lt a 65 with h4 | h4
          · simp [pdCut, ageBins, cutMem, h3, h4, m0, m1, m2, m3]
          · have m4 : ¬ a ≤ (65:ℚ) := by linarith
            rcases le_or_lt a 100 with h5 | h5
            · simp [pdCut, ageBins, cutMem, h4, h5, m0, m1, m2, m3, m4]
            · have m5 : ¬ a ≤ (100:ℚ) := by linarith
              simp [pdCut, ageBins, cutMem, m0, m1, m2, m3, m4, m5]

/-- Closed form of the `los_category` cut: the pandas bins
`[0, 1, 3, 7, inf]` leave `l ≤ 0` uncategorised. -/
theorem pdCut_losBins (l : ℚ) :
    pdCut l losBins =
      if l ≤ 0 then none
      else if l ≤ 1 then some "Same Day"
      else if l ≤ 3 then some "Short"
      else if l ≤ 7 then some "Medium"
      else some "Long" := by
  rcases le_or_lt l 0 with h0 | h0
  · have n1 : ¬ (0:ℚ) < l := by linarith
    have n2 : ¬ (1:ℚ) < l := by linarith
    have n3 : ¬ (3:ℚ) < l := by linarith
    have n4 : ¬ (7:ℚ) < l := by linarith
    simp [pdCut, losBins, cutMem, h0, n1, n2, n3, n4]
  · have m0 : ¬ l ≤ (0:ℚ) := by linarith
    rcases le_or_lt l 1 with h1 | h1
    · simp [pdCut, losBins, cutMem, h0, h1, m0]
    · have m1 : ¬ l ≤ (1:ℚ) := by linarith
      rcases le_or_lt l 3 with h2 | h2
      · simp [pdCut, losBins, cutMem, h1, h2, m0, m1]
      · have m2 : ¬ l ≤ (3:ℚ) := by linarith
        rcases le_or_lt l 7 with h3 | h3
        · simp [pdCut, losBins, cutMem, h2, h3, m0, m1, m2]
        · have m3 : ¬ l ≤ (7:ℚ) := by linarith
          simp [pdCut, losBins, cutMem, h3, m0, m1, m2, m3]

/-! ## Claim theorems -/

/-- C1: for every claim row processed by the claims transform, the derived
`readmission_flag` is true iff `readmission_date` is non-null and the
day difference `readmission_date - discharge_date` is strictly positive and
at most 30; a null/absent `readmission_date` yields a false flag. -/
theorem readmission_flag_correct (rows : List ClaimRow) (r : ClaimFeat)
    (hr : r ∈ engineer_claims_features rows) :
    (r.readmission_flag = true ↔
      ∃ rd, r.readmission_date = some rd ∧
        ∃ dd, r.discharge_date = some dd ∧ 0 < rd - dd ∧ rd - dd ≤ 30) ∧
    (r.readmission_date = none → r.readmission_flag = false) := by
  simp only [engineer_claims_features, List.mem_map] at hr
  obtain ⟨x, _, rfl⟩ := hr
  cases hrd : x.readmission_date with
  | none => simp [engineerClaimRow, calculate_readmission_flag, hrd]
  | some rdv =>
      cases hdd : x.discharge_date with
      | none => simp [engineerClaimRow, calculate_readmission_flag, hrd, hdd]
      | some ddv =>
          simp only [engineerClaimRow, calculate_readmission_flag, hrd, hdd,
            Bool.and_eq_true, decide_eq_true_eq, Option.some.injEq, gt_iff_lt]
          constructor
          · constructor
            · rintro ⟨h1, h2⟩
              exact ⟨rdv, rfl, ddv, rfl, h2, h1⟩
            · rintro ⟨rd, hrd', dd, hdd', h1, h2⟩
              subst hrd'; subst hdd'
              exact ⟨h2, h1⟩
          · intro h; cases h

/-- C4: every row surviving `_clean_claims_data` has `cost > 0` and
`0 ≤ length_of_stay ≤ 365`; and any input containing a row violating
either constraint (including an unparsable cost/length_of_stay, modelled
as `none`) yields a strictly shorter cleaned output. -/
theorem clean_claims_constraints (rows : List ClaimRow) :
    (∀ r ∈ clean_claims_data rows,
       (∃ c, r.cost = some c ∧ 0 < c) ∧
       (∃ l, r.length_of_stay = some l ∧ 0 ≤ l ∧ l ≤ 365)) ∧
    (∀ r ∈ rows, costPositive r = false ∨ losInRange r = false →
       (clean_claims_data rows).length < rows.length) := by
  constructor
  · intro r hmem
    have h := mem_clean_claims hmem
    exact ⟨(costPositive_iff r).mp h.1, (losInRange_iff r).mp h.2⟩
  · intro r hr hbad
    have hcost : ∀ a, costPositive (cleanClaimCells a) = costPositive a :=
      fun a => rfl
    have hlos : ∀ a, losInRange (cleanClaimCells a) = losInRange a :=
      fun a => rfl
    unfold clean_claims_data
    rw [List.filter_filter, List.filter_map, List.length_map]
    apply length_filter_dedupBy_lt _ _ rows [] r hr
    simp only [Function.comp_apply, hcost, hlos, Bool.and_eq_false_iff]
    rcases hbad with h | h
    · exact Or.inr h
    · exact Or.inl h

/-- C10: on every cleaned claim row the engineered
`cost_per_day = cost / (length_of_stay + 1)` has a divisor of at least 1
(never zero) and is strictly positive, because cleaning guarantees
`cost > 0` and `length_of_stay ≥ 0`. -/
theorem cost_per_day_safe (rows : List ClaimRow) (r : ClaimFeat)
    (hr : r ∈ engineer_claims_features (clean_claims_data rows))
    (c l : ℚ) (hc : r.cost = some c) (hl : r.length_of_stay = some l) :
    r.cost_per_day = some (c / (l + 1)) ∧ 1 ≤ l + 1 ∧ 0 < c / (l + 1) := by
  simp only [engineer_claims_features, List.mem_map] at hr
  obtain ⟨x, hx, rfl⟩ := hr
  have hcl := mem_clean_claims hx
  obtain ⟨c', hc', hcpos⟩ := (costPositive_iff x).mp hcl.1
  obtain ⟨l', hl', hl0, _⟩ := (losInRange_iff x).mp hcl.2
  have hcc : c' = c := by
    have : x.cost = some c := hc
    rw [hc'] at this
    exact Option.some.inj this
  have hll : l' = l := by
    have : x.length_of_stay = some l := hl
    rw [hl'] at this
    exact Option.some.inj this
  subst hcc; subst hll
  refine ⟨?_, by linarith, div_pos hcpos (by linarith)⟩
  show (do
    let cv ← x.cost
    let lv ← x.length_of_stay
    pure (cv / (lv + 1))) = some (c' / (l' + 1))
  rw [hc', hl']
  rfl

/-- Where the `age_category` buckets actually send an age in `(0, 100]`
(the nested-interval reading of the spec's bucket list). -/
def ageCategorySpec (a : ℚ) : String :=
  if a ≤ 18 then "Pediatric"
  else if a ≤ 35 then "Young Adult"
  else if a ≤ 50 then "Adult"
  else if a ≤ 65 then "Middle Age"
  else "Senior"

/-- A patient row with age 120: inside the cleaning range `[0, 120]` but
above the top `pd.cut` bin edge of 100. -/
def agePatient120 : PatientRow :=
  ⟨1, some 120, some "F", some "White", "12345", some "Private", some 1, some 0⟩

/-- C2 counterexample: the patient with age 120 survives cleaning (the valid
range is `[0, 120]`) yet is assigned NO `age_category` — `pd.cut` with bins
`[0, 18, 35, 50, 65, 100]` leaves `(100, 120]` (and age 0) uncovered, so the
bucketing is not total on `[0, 120]`. -/
theorem age_category_not_total :
    ((engineer_patients_features 0 (clean_patients_data [agePatient120])).map
      (fun r => (r.age, r.age_category))) =
      [(some (120 : ℚ), (none : Option String))] := by
  decide

/-- C2 (amended): the `age_category` bucketing is total and disjoint on
`(0, 100]` — every cleaned patient row with age in `(0, 100]` is assigned
exactly the bucket given by the boundaries 18/35/50/65 — while age 0 and
ages in `(100, 120]` (which survive cleaning) are assigned no category. -/
theorem age_category_buckets (rows : List PatientRow) (cur : Int)
    (r : PatientFeat)
    (hr : r ∈ engineer_patients_features cur (clean_patients_data rows))
    (a : ℚ) (ha : r.age = some a) :
    (0 < a → a ≤ 100 → r.age_category = some (ageCategorySpec a)) ∧
    (a = 0 ∨ 100 < a → r.age_category = none) := by
  simp only [engineer_patients_features, List.mem_map] at hr
  obtain ⟨x, _, rfl⟩ := hr
  have ha' : x.age = some a := ha
  constructor
  · intro h0 h100
    show (x.age.map fun v => pdCut v ageBins).join = some (ageCategorySpec a)
    rw [ha']
    show pdCut a ageBins = some (ageCategorySpec a)
    rw [pdCut_ageBins]
    unfold ageCategorySpec
    split_ifs <;> first | rfl | linarith
  · intro hout
    show (x.age.map fun v => pdCut v ageBins).join = none
    rw [ha']
    show pdCut a ageBins = none
    rw [pdCut_ageBins]
    rcases hout with h | h
    · split_ifs <;> first | rfl | linarith
    · split_ifs <;> first | rfl | linarith

/-- Where the `los_category` buckets actually send a length of stay in
`(0, ∞)` (the nested-interval reading of the spec's bucket list). -/
def losCategorySpec (l : ℚ) : String :=
  if l ≤ 1 then "Same Day"
  else if l ≤ 3 then "Short"
  else if l ≤ 7 then "Medium"
  else "Long"

/-- A claim row with `length_of_stay = 0`: kept by cleaning
(`0 ≤ 0 ≤ 365`, cost positive) but below the lowest `pd.cut` bin edge. -/
def sameDayClaim : ClaimRow :=
  ⟨1, 1, 1, some 0, some 1, none, some "I10", "99213", some "Private",
   some 100, some 0⟩

/-- C7 counterexample: a cleaned claim row with `length_of_stay = 0` is
assigned NO `los_category` (not "Same Day") — `pd.cut` with bins
`[0, 1, 3, 7, inf]` excludes the left edge 0. -/
theorem los_category_zero_uncategorised :
    ((engineer_claims_features (clean_claims_data [sameDayClaim])).map
      (fun r => (r.length_of_stay, r.los_category))) =
      [(some (0 : ℚ), (none : Option String))] := by
  decide

/-- C7 (amended): every cleaned claim row with `length_of_stay` in
`(0, 365]` gets exactly one `los_category` per the buckets
`(0,1] → Same Day, (1,3] → Short, (3,7] → Medium, (7,∞) → Long`;
a row with `length_of_stay = 0` gets no category. -/
theorem los_category_buckets (rows : List ClaimRow) (r : ClaimFeat)
    (hr : r ∈ engineer_claims_features (clean_claims_data rows))
    (l : ℚ) (hl : r.length_of_stay = some l) :
    (0 < l → r.los_category = some (losCategorySpec l)) ∧
    (l = 0 → r.los_category = none) := by
  simp only [engineer_claims_features, List.mem_map] at hr
  obtain ⟨x, _, rfl⟩ := hr
  have hl' : x.length_of_stay = some l := hl
  constructor
  · intro h0
    show (x.length_of_stay.map fun v => pdCut v losBins).join =
      some (losCategorySpec l)
    rw [hl']
    show pdCut l losBins = some (losCategorySpec l)
    rw [pdCut_losBins]
    unfold losCategorySpec
    split_ifs <;> first | rfl | linarith
  · intro h0
    show (x.length_of_stay.map fun v => pdCut v losBins).join = none
    rw [hl']
    show pdCut l losBins = none
    rw [pdCut_losBins]
    split_ifs <;> first | rfl | linarith

/-- C3: after the prescriptions transform, `adherence_rate` is exactly the
`calculate_medication_adherence` formula (`days_supplied / days_prescribed`,
null mapped to 0, clipped to `[0, 1]`); consequently it lies in `[0, 1]`
for every row, equals the clipped quotient on the (always non-null,
positive) cleaned inputs, and equals 1 whenever
`days_supplied ≥ days_prescribed`. -/
theorem adherence_rate_correct (rows : List PrescriptionRow)
    (r : PrescriptionFeat)
    (hr : r ∈ engineer_prescriptions_features (clean_prescriptions_data rows)) :
    r.adherence_rate =
      calculate_medication_adherence r.days_supplied r.days_prescribed ∧
    0 ≤ r.adherence_rate ∧ r.adherence_rate ≤ 1 ∧
    ∀ ds dp, r.days_supplied = some ds → r.days_prescribed = some dp →
      r.adherence_rate = min 1 (max 0 (ds / dp)) ∧
      (dp ≤ ds → r.adherence_rate = 1) := by
  simp only [engineer_prescriptions_features, List.mem_map] at hr
  obtain ⟨x, hx, rfl⟩ := hr
  have hcl := mem_clean_prescriptions hx
  obtain ⟨ds, hds, hds0⟩ := (optPositive_iff _).mp hcl.1
  obtain ⟨dp, hdp, hdp0⟩ := (optPositive_iff _).mp hcl.2.1
  have hrate : calculate_medication_adherence x.days_supplied x.days_prescribed
      = min 1 (max 0 (ds / dp)) := by
    rw [hds, hdp]
    simp [calculate_medication_adherence, ne_of_gt hdp0]
  refine ⟨rfl, ?_, ?_, ?_⟩
  · show 0 ≤ calculate_medication_adherence x.days_supplied x.days_prescribed
    rw [hrate]
    exact le_min (by norm_num) (le_max_left 0 _)
  · show calculate_medication_adherence x.days_supplied x.days_prescribed ≤ 1
    rw [hrate]
    exact min_le_left 1 _
  · intro ds' dp' hds' hdp'
    have hds2 : ds' = ds := by
      have h1 : x.days_supplied = some ds' := hds'
      rw [hds] at h1
      exact (Option.some.inj h1).symm
    have hdp2 : dp' = dp := by
      have h1 : x.days_prescribed = some dp' := hdp'
      rw [hdp] at h1
      exact (Option.some.inj h1).symm
    subst hds2; subst hdp2
    constructor
    · exact hrate
    · intro hle
      show calculate_medication_adherence x.days_supplied x.days_prescribed = 1
      rw [hrate]
      have h1 : (1:ℚ) ≤ ds' / dp' := (one_le_div hdp0).mpr hle
      rw [max_eq_right (by linarith : (0:ℚ) ≤ ds' / dp')]
      exact min_eq_left h1

/-- A bronze claims dataframe whose column list lacks `patient_id` — a
required column that no cleaning or engineering step touches, so the
claims transform reaches validation and fails there. -/
def brokenClaimsBronze : DF ClaimRow :=
  ⟨["claim_id", "provider_id", "diagnosis_code", "cost"], []⟩

/-- A well-formed (empty) bronze claims dataframe. -/
def okClaimsBronze : DF ClaimRow :=
  ⟨["claim_id", "patient_id", "provider_id", "diagnosis_code", "cost"], []⟩

/-- A bronze patients dataframe whose column list lacks the required
`age` column, so the patients transform fails validation. -/
def brokenPatientsBronze : DF PatientRow := ⟨["patient_id", "gender"], []⟩

/-- A well-formed (empty) bronze patients dataframe. -/
def okPatientsBronze : DF PatientRow := ⟨["patient_id", "age", "gender"], []⟩

/-- A well-formed (empty) bronze providers dataframe. -/
def okProvidersBronze : DF ProviderRow :=
  ⟨["provider_id", "hospital_name", "state"], []⟩

/-- A well-formed (empty) bronze prescriptions dataframe. -/
def okPrescriptionsBronze : DF PrescriptionRow :=
  ⟨["prescription_id", "patient_id", "medication_name", "cost"], []⟩

/-- C5 counterexample: with a claims bronze input that fails validation and
a patients bronze input whose transform succeeds on its own,
`transform_all_data` stops after the claims transform — the patients,
providers and prescriptions transforms never run — refuting the claim that
one entity's fatal validation failure does not prevent the other entity
transforms from running. -/
theorem transform_all_not_independent :
    transform_claims_data brokenClaimsBronze =
      Except.error "Claims data validation failed" ∧
    transform_patients_data 0 okPatientsBronze =
      Except.ok ⟨["patient_id", "age", "gender", "age_category", "risk_level",
        "days_since_last_visit", "patient_status"], []⟩ ∧
    transformsRun 0 brokenClaimsBronze okPatientsBronze okProvidersBronze
      okPrescriptionsBronze = ["claims"] ∧
    transform_all_data 0 brokenClaimsBronze okPatientsBronze okProvidersBronze
      okPrescriptionsBronze = Except.error "Claims data validation failed" := by
  refine ⟨rfl, rfl, ?_, ?_⟩ <;> rfl

/-- C5 (amended): `transform_all_data` runs the four entity transforms
strictly in sequence with no per-entity exception handling.  A fatal
validation failure in ANY of the four entity transforms aborts the run at
that entity — the transforms of the subsequent entities do not execute —
and the failure propagates to the caller as the overall result, so the
caller sees failure whenever any entity failed; when all four succeed,
all four run and the overall result is success. -/
theorem transform_all_aborts_on_failure (cur : Int) (cb : DF ClaimRow)
    (pb : DF PatientRow) (vb : DF ProviderRow) (rb : DF PrescriptionRow)
    (e : String) :
    (transform_claims_data cb = Except.error e →
       transform_all_data cur cb pb vb rb = Except.error e ∧
       transformsRun cur cb pb vb rb = ["claims"]) ∧
    (∀ c, transform_claims_data cb = Except.ok c →
       transform_patients_data cur pb = Except.error e →
       transform_all_data cur cb pb vb rb = Except.error e ∧
       transformsRun cur cb pb vb rb = ["claims", "patients"]) ∧
    (∀ c p, transform_claims_data cb = Except.ok c →
       transform_patients_data cur pb = Except.ok p →
       transform_providers_data vb = Except.error e →
       transform_all_data cur cb pb vb rb = Except.error e ∧
       transformsRun cur cb pb vb rb = ["claims", "patients", "providers"]) ∧
    (∀ c p v, transform_claims_data cb = Except.ok c →
       transform_patients_data cur pb = Except.ok p →
       transform_providers_data vb = Except.ok v →
       transform_prescriptions_data rb = Except.error e →
       transform_all_data cur cb pb vb rb = Except.error e ∧
       transformsRun cur cb pb vb rb =
         ["claims", "patients", "providers", "prescriptions"]) ∧
    (∀ c p v r, transform_claims_data cb = Except.ok c →
       transform_patients_data cur pb = Except.ok p →
       transform_providers_data vb = Except.ok v →
       transform_prescriptions_data rb = Except.ok r →
       transform_all_data cur cb pb vb rb = Except.ok ⟨c, p, v, r⟩ ∧
       transformsRun cur cb pb vb rb =
         ["claims", "patients", "providers", "prescriptions"]) := by
  refine ⟨?_, ?_, ?_, ?_, ?_⟩
  · intro h
    constructor
    · unfold transform_all_data
      rw [h]
      rfl
    · unfold transformsRun
      rw [h]
  · intro c hc h
    constructor
    · unfold transform_all_data
      rw [hc, h]
      rfl
    · unfold transformsRun
      rw [hc, h]
  · intro c p hc hp h
    constructor
    · unfold transform_all_data
      rw [hc, hp, h]
      rfl
    · unfold transformsRun
      rw [hc, hp, h]
  · intro c p v hc hp hv h
    constructor
    · unfold transform_all_data
      rw [hc, hp, hv, h]
      rfl
    · unfold transformsRun
      rw [hc, hp, hv]
  · intro c p v r hc hp hv h
    constructor
    · unfold transform_all_data
      rw [hc, hp, hv, h]
      rfl
    · unfold transformsRun
      rw [hc, hp, hv]

/-- C6: assuming the database connection and schema creation succeed,
`load_all_data` returns true iff all four per-entity loads succeed; all
four loads are attempted regardless of individual failures (no
short-circuit); and the provider-metric update step runs exactly when
every entity load reported success. -/
theorem load_all_correct (env : LoadEnv) (hc : env.connect_ok = true)
    (hs : env.create_schema_ok = true) :
    ((load_all_data env).1 = true ↔
      env.load_patients_ok = true ∧ env.load_providers_ok = true ∧
      env.load_claims_ok = true ∧ env.load_prescriptions_ok = true) ∧
    ("load_patients_data" ∈ (load_all_data env).2 ∧
     "load_providers_data" ∈ (load_all_data env).2 ∧
     "load_claims_data" ∈ (load_all_data env).2 ∧
     "load_prescriptions_data" ∈ (load_all_data env).2) ∧
    ("update_provider_metrics" ∈ (load_all_data env).2 ↔
      (load_all_data env).1 = true) := by
  obtain ⟨c, s, p1, p2, p3, p4⟩ := env
  simp only at hc hs
  subst hc; subst hs
  cases p1 <;> cases p2 <;> cases p3 <;> cases p4 <;> decide

/-- C8: `_add_medication_ids` keeps every prescription row (same row
count, no failure); each row's `medication_id` is the warehouse lookup of
its `medication_name`, defaulted to the sentinel 0 when the name has no
match; and the logged unmapped-name list holds exactly the names occurring
in the input that have no match. -/
theorem add_medication_ids_correct (meds : List (String × Nat))
    (rows : List PrescriptionFeat) :
    (add_medication_ids meds rows).1.length = rows.length ∧
    (∀ p ∈ (add_medication_ids meds rows).1,
       p.2 = (dictLookup meds p.1.medication_name).getD 0 ∧
       (dictLookup meds p.1.medication_name = none → p.2 = 0)) ∧
    (∀ n, n ∈ (add_medication_ids meds rows).2 ↔
       (∃ r ∈ rows, r.medication_name = n) ∧ dictLookup meds n = none) := by
  unfold add_medication_ids
  refine ⟨by simp, ?_, ?_⟩
  · intro p hp
    simp only [List.mem_map] at hp
    obtain ⟨q, hq, rfl⟩ := hp
    obtain ⟨r0, _, rfl⟩ := hq
    exact ⟨rfl, fun hnone => by simp [hnone]⟩
  · intro n
    rw [mem_dedupStr]
    simp only [List.mem_map, List.mem_filter, List.mem_map,
      Option.isNone_iff_eq_none]
    constructor
    · rintro ⟨q, ⟨⟨r0, hr0, rfl⟩, hnone⟩, rfl⟩
      exact ⟨⟨r0, hr0, rfl⟩, hnone⟩
    · rintro ⟨⟨r0, hr0, rfl⟩, hnone⟩
      exact ⟨(r0, dictLookup meds r0.medication_name),
        ⟨⟨r0, hr0, rfl⟩, hnone⟩, rfl⟩

/-- C9: `extract_claims_data` returns the parsed rows of the supplied
source file whenever a (non-empty) path is given and the file exists; in
every no-source case it returns the synthetic dataset generated from the
fixed seed 42, independently of the ambient random-generator state — two
runs with no source file produce identical datasets. -/
theorem extract_claims_deterministic (fs : String → Option (DF ClaimRow))
    (body : RngState → DF ClaimRow) (p : String) (df : DF ClaimRow)
    (amb amb' : RngState) (hp : p.isEmpty = false) (hfs : fs p = some df) :
    extract_claims_data fs body (some p) amb = (df, p) ∧
    extract_claims_data fs body none amb = (body (npSeed 42), "generated") ∧
    extract_claims_data fs body none amb =
      extract_claims_data fs body none amb' ∧
    ∀ q, fs q = none →
      extract_claims_data fs body (some q) amb =
        extract_claims_data fs body (some q) amb' := by
  refine ⟨?_, rfl, rfl, ?_⟩
  · simp [extract_claims_data, hp, hfs]
  · intro q hq
    by_cases hqe : q.isEmpty <;>
      simp [extract_claims_data, hqe, hq, generate_sample_claims_data]

/-! ## Concrete instances used by the witness theorems -/

/-- Discharge day 4, readmission day 19: a 15-day gap (spec scenario). -/
def readmitClaim : ClaimRow :=
  ⟨1, 1, 1, some 0, some 4, some 19, some "E11.9", "99213", some "Private",
   some 100, some 4⟩

/-- The engineered row for `readmitClaim`. -/
def readmitFeat : ClaimFeat := engineerClaimRow readmitClaim

/-- A claim row with negative cost (spec scenario `cost: -50`). -/
def badCostClaim : ClaimRow :=
  ⟨1, 1, 1, some 0, some 2, none, some "I10", "99213", some "Private",
   some (-50), some 2⟩

/-- A valid claim row: cost 100, length of stay 4. -/
def goodClaim : ClaimRow :=
  ⟨2, 1, 1, some 0, some 4, none, some "I10", "99214", some "Private",
   some 100, some 4⟩

/-- The engineered row for `goodClaim` after cleaning. -/
def goodFeat : ClaimFeat := engineerClaimRow (cleanClaimCells goodClaim)

/-- A 70-year-old patient. -/
def seniorPatient : PatientRow :=
  ⟨2, some 70, some "F", some "White", "12345", some "Private", some 1, some 0⟩

/-- The engineered row for `seniorPatient` after cleaning, with
`current_date = 0`. -/
def seniorFeat : PatientFeat := engineerPatientRow 0 (cleanPatientCells seniorPatient)

/-- A claim row with a two-day stay. -/
def shortStayClaim : ClaimRow :=
  ⟨3, 1, 1, some 0, some 2, none, some "I10", "99213", some "Private",
   some 100, some 2⟩

/-- The engineered row for `shortStayClaim` after cleaning. -/
def shortStayFeat : ClaimFeat := engineerClaimRow (cleanClaimCells shortStayClaim)

/-- Model of `days_supplied 90, days_prescribed 30` (spec scenario). -/
def adherentPresc : PrescriptionRow :=
  ⟨1, 1, 1, "Metformin", some 0, some 90, some 30, some 90, some 45⟩

/-- The engineered row for `adherentPresc` after cleaning. -/
def adherentFeat : PrescriptionFeat :=
  engineerPrescriptionRow (cleanPrescriptionCells adherentPresc)

/-- A two-entry warehouse medications table. -/
def medsTable : List (String × Nat) := [("Metformin", 1), ("Lisinopril", 2)]

/-- A silver prescription row whose medication is in the warehouse table. -/
def knownPresc : PrescriptionFeat :=
  ⟨⟨1, 1, 1, "Metformin", some 0, some 30, some 30, some 30, some 10⟩, 1,
   some "Good", some (1/3), "Diabetes"⟩

/-- A silver prescription row whose medication is absent from the table. -/
def mysteryPresc : PrescriptionFeat :=
  ⟨⟨2, 1, 1, "Unknowndrug", some 0, some 30, some 30, some 30, some 10⟩, 1,
   some "Good", some (1/3), "Other"⟩

/-- A loader environment in which every step succeeds. -/
def allOkLoadEnv : LoadEnv := ⟨true, true, true, true, true, true⟩

/-- A parsed source file for the extractor witness. -/
def sampleDF : DF ClaimRow := ⟨["claim_id"], []⟩

/-- A synthetic dataset for the extractor witness. -/
def genDF : DF ClaimRow :=
  ⟨["claim_id"], [⟨9, 9, 9, none, none, none, none, "", none, none, none⟩]⟩

/-- A filesystem holding exactly one claims file. -/
def fsDemo : String → Option (DF ClaimRow) := fun q =>
  if q = "claims.csv" then some sampleDF else none

/-- A generator body for the extractor witness. -/
def bodyDemo : RngState → DF ClaimRow := fun _ => genDF

/-! ## Witness theorems -/

/-- C1 witness: the 15-day-gap claim gets `readmission_flag = true`. -/
theorem readmission_flag_correct_witness :
    readmitFeat ∈ engineer_claims_features [readmitClaim] ∧
    readmitFeat.readmission_flag = true := by
  have hm : readmitFeat ∈ engineer_claims_features [readmitClaim] :=
    List.mem_singleton.mpr rfl
  exact ⟨hm, (readmission_flag_correct [readmitClaim] readmitFeat hm).1.mpr
    ⟨19, rfl, 4, rfl, by decide, by decide⟩⟩

/-- C4 witness: an input containing the cost (-50) claim row cleans to a
strictly shorter output. -/
theorem clean_claims_constraints_witness :
    (clean_claims_data [badCostClaim]).length < [badCostClaim].length :=
  (clean_claims_constraints [badCostClaim]).2 badCostClaim
    (List.mem_singleton.mpr rfl) (Or.inl (by decide))

/-- C10 witness: the cost-100 / stay-4 claim row gets
`cost_per_day = 100 / 5 > 0`. -/
theorem cost_per_day_safe_witness :
    goodFeat.cost_per_day = some ((100 : ℚ) / (4 + 1)) ∧
    (1 : ℚ) ≤ 4 + 1 ∧ (0 : ℚ) < 100 / (4 + 1) := by
  have hm : goodFeat ∈ engineer_claims_features (clean_claims_data [goodClaim]) :=
    List.mem_singleton.mpr rfl
  exact cost_per_day_safe [goodClaim] goodFeat hm 100 4 rfl rfl

/-- C2 witness: the 70-year-old patient is bucketed as Senior. -/
theorem age_category_buckets_witness :
    seniorFeat.age_category = some (ageCategorySpec 70) := by
  have hm : seniorFeat ∈
      engineer_patients_features 0 (clean_patients_data [seniorPatient]) :=
    List.mem_singleton.mpr rfl
  exact (age_category_buckets [seniorPatient] 0 seniorFeat hm 70
    rfl).1 (by decide) (by decide)

/-- C7 witness: the two-day-stay claim is bucketed as Short. -/
theorem los_category_buckets_witness :
    shortStayFeat.los_category = some (losCategorySpec 2) := by
  have hm : shortStayFeat ∈
      engineer_claims_features (clean_claims_data [shortStayClaim]) :=
    List.mem_singleton.mpr rfl
  exact (los_category_buckets [shortStayClaim] shortStayFeat hm 2
    rfl).1 (by decide)

/-- C3 witness: `days_supplied 90, days_prescribed 30` yields
`adherence_rate = 1` (clipped), inside `[0, 1]`. -/
theorem adherence_rate_correct_witness :
    0 ≤ adherentFeat.adherence_rate ∧ adherentFeat.adherence_rate ≤ 1 ∧
    adherentFeat.adherence_rate = 1 := by
  have hm : adherentFeat ∈
      engineer_prescriptions_features (clean_prescriptions_data [adherentPresc]) :=
    List.mem_singleton.mpr rfl
  have h := adherence_rate_correct [adherentPresc] adherentFeat hm
  exact ⟨h.2.1, h.2.2.1, (h.2.2.2 90 30 rfl rfl).2 (by decide)⟩

/-- C5 witness: on the broken-claims input, `transform_all_data` errors out
and only the claims transform ran; on a good-claims / broken-patients input,
the claims and patients transforms ran, the providers and prescriptions
transforms did not, and the patients failure is the overall result. -/
theorem transform_all_aborts_on_failure_witness :
    (transform_all_data 0 brokenClaimsBronze okPatientsBronze okProvidersBronze
       okPrescriptionsBronze = Except.error "Claims data validation failed" ∧
     transformsRun 0 brokenClaimsBronze okPatientsBronze okProvidersBronze
       okPrescriptionsBronze = ["claims"]) ∧
    (transform_all_data 0 okClaimsBronze brokenPatientsBronze okProvidersBronze
       okPrescriptionsBronze = Except.error "Patients data validation failed" ∧
     transformsRun 0 okClaimsBronze brokenPatientsBronze okProvidersBronze
       okPrescriptionsBronze = ["claims", "patients"]) :=
  ⟨(transform_all_aborts_on_failure 0 brokenClaimsBronze okPatientsBronze
      okProvidersBronze okPrescriptionsBronze
      "Claims data validation failed").1 rfl,
   (transform_all_aborts_on_failure 0 okClaimsBronze brokenPatientsBronze
      okProvidersBronze okPrescriptionsBronze
      "Patients data validation failed").2.1
     ⟨okClaimsBronze.cols ++ claimsEngineeredColumns, []⟩ rfl rfl⟩

/-- C6 witness: with every step succeeding, `load_all_data` is true, all
four loads ran, and the provider-metric update ran. -/
theorem load_all_correct_witness :
    ((load_all_data allOkLoadEnv).1 = true ↔
      allOkLoadEnv.load_patients_ok = true ∧
      allOkLoadEnv.load_providers_ok = true ∧
      allOkLoadEnv.load_claims_ok = true ∧
      allOkLoadEnv.load_prescriptions_ok = true) ∧
    ("load_patients_data" ∈ (load_all_data allOkLoadEnv).2 ∧
     "load_providers_data" ∈ (load_all_data allOkLoadEnv).2 ∧
     "load_claims_data" ∈ (load_all_data allOkLoadEnv).2 ∧
     "load_prescriptions_data" ∈ (load_all_data allOkLoadEnv).2) ∧
    ("update_provider_metrics" ∈ (load_all_data allOkLoadEnv).2 ↔
      (load_all_data allOkLoadEnv).1 = true) :=
  load_all_correct allOkLoadEnv rfl rfl

/-- C8 witness: both rows are kept; the unmatched name resolves to the
sentinel 0 and is reported among the unmapped names. -/
theorem add_medication_ids_correct_witness :
    (add_medication_ids medsTable [knownPresc, mysteryPresc]).1.length = 2 ∧
    (mysteryPresc, 0) ∈ (add_medication_ids medsTable [knownPresc, mysteryPresc]).1 ∧
    "Unknowndrug" ∈ (add_medication_ids medsTable [knownPresc, mysteryPresc]).2 := by
  have h := add_medication_ids_correct medsTable [knownPresc, mysteryPresc]
  have hm : (mysteryPresc, 0) ∈
      (add_medication_ids medsTable [knownPresc, mysteryPresc]).1 :=
    List.mem_cons_of_mem _ (List.mem_singleton.mpr rfl)
  exact ⟨h.1.trans rfl, hm,
    (h.2.2 "Unknowndrug").mpr
      ⟨⟨mysteryPresc, List.mem_cons_of_mem _ (List.mem_singleton.mpr rfl), rfl⟩,
        by decide⟩⟩

/-- C9 witness: with the demo filesystem, the existing path is read back
verbatim, and two no-source runs from different ambient generator states
coincide on the seed-42 synthetic dataset. -/
theorem extract_claims_deterministic_witness :
    extract_claims_data fsDemo bodyDemo (some "claims.csv") ⟨5⟩ =
      (sampleDF, "claims.csv") ∧
    extract_claims_data fsDemo bodyDemo none ⟨5⟩ =
      (bodyDemo (npSeed 42), "generated") ∧
    extract_claims_data fsDemo bodyDemo none ⟨5⟩ =
      extract_claims_data fsDemo bodyDemo none ⟨7⟩ := by
  have h := extract_claims_deterministic fsDemo bodyDemo "claims.csv" sampleDF
    ⟨5⟩ ⟨7⟩ rfl rfl
  exact ⟨h.1, h.2.1, h.2.2.1⟩

end HealthcareETL
